import Mathlib

/-!
# GlowDvrf: discrete-log-equality proofs, masked evaluation and share admission

A shallow embedding of `lib/include/glow_dvrf.hpp` (class template
`fetch::consensus::GlowDvrf<CryptoType>`).

* The template parameter `CryptoType` (scalars, group elements, pairing, hashing,
  string serialisation) lives outside the header; it is a parameter of every
  definition here, as a record of carrier types and operations.  The algebraic
  facts the arithmetic library is assumed to satisfy are collected in
  `CryptoType.Lawful`, and are hypotheses of the theorems that need them.
* Group operations are written the way the header writes them: `mult` is scalar
  multiplication of a group element (exponentiation in multiplicative notation)
  and `add` is the group operation.
* `random()` is modelled by passing the sampled scalar as an extra argument.
* `assert` is modelled as compiled in: a failed assertion ends the call in
  `Outcome.assertFailed`.
-/

namespace GlowDvrf

/-! ## The cryptographic backend -/

/-- The `CryptoType` template parameter.  `Signature` is also the header's
`VerificationKey`: `proof` stores `PH.mult(r)` in a `VerificationKey` and hashes
both kinds of value in one `setHashOf` call, so the two names denote one group.
`GroupPublicKey` is the second pairing group and `Pairing` the target group. -/
structure CryptoType where
  PrivateKey : Type
  Signature : Type
  GroupPublicKey : Type
  Pairing : Type
  PrivateKey_eq : DecidableEq PrivateKey
  Signature_eq : DecidableEq Signature
  Pairing_eq : DecidableEq Pairing
  /-- `a.negate(b)`: additive inverse in the scalar field. -/
  PrivateKey_negate : PrivateKey → PrivateKey
  /-- `a.add(b, c)`: sum of scalars. -/
  PrivateKey_add : PrivateKey → PrivateKey → PrivateKey
  /-- `a.mult(b, c)`: product of scalars. -/
  PrivateKey_mult : PrivateKey → PrivateKey → PrivateKey
  /-- `c.setHashOf(G, PH, y, sig, com1, com2)`: hash of an ordered six-tuple of
  group elements into the scalar field. -/
  PrivateKey_setHashOf :
    Signature → Signature → Signature → Signature → Signature → Signature → PrivateKey
  /-- `a.assign(str)`: parse a scalar; `none` when `assign` returns false. -/
  PrivateKey_assign : String → Option PrivateKey
  PrivateKey_toString : PrivateKey → String
  /-- The default-constructed group element: the identity. -/
  Signature_zero : Signature
  /-- `P.hashAndMap(message)`. -/
  Signature_hashAndMap : String → Signature
  /-- `Q.mult(P, a)`: scalar multiple of a group element. -/
  Signature_mult : Signature → PrivateKey → Signature
  /-- `R.add(P, Q)`: the group operation. -/
  Signature_add : Signature → Signature → Signature
  Signature_assign : String → Option Signature
  Signature_toString : Signature → String
  /-- Scalar multiple in the second pairing group. -/
  GroupPublicKey_mult : GroupPublicKey → PrivateKey → GroupPublicKey
  /-- `e.map(P, Q)`: the pairing. -/
  Pairing_map : Signature → GroupPublicKey → Pairing
  /-- Scalar power in the target group; used only to state bilinearity. -/
  Pairing_pow : Pairing → PrivateKey → Pairing

attribute [instance] CryptoType.PrivateKey_eq CryptoType.Signature_eq CryptoType.Pairing_eq

/-- The algebraic facts assumed of the arithmetic library: scalar
multiplication is commutative and compatible with negation, the signature group
is a commutative group on which scalars act linearly, and the pairing is
bilinear. -/
structure CryptoType.Lawful (C : CryptoType) : Prop where
  mult_comm : ∀ a b, C.PrivateKey_mult a b = C.PrivateKey_mult b a
  mult_negate : ∀ a b,
    C.PrivateKey_mult a (C.PrivateKey_negate b) = C.PrivateKey_negate (C.PrivateKey_mult a b)
  sig_add_assoc : ∀ P Q R,
    C.Signature_add (C.Signature_add P Q) R = C.Signature_add P (C.Signature_add Q R)
  sig_add_comm : ∀ P Q, C.Signature_add P Q = C.Signature_add Q P
  sig_add_zero : ∀ P, C.Signature_add P C.Signature_zero = P
  sig_mult_add : ∀ P a b,
    C.Signature_mult P (C.PrivateKey_add a b)
      = C.Signature_add (C.Signature_mult P a) (C.Signature_mult P b)
  sig_mult_mult : ∀ P a b,
    C.Signature_mult (C.Signature_mult P a) b = C.Signature_mult P (C.PrivateKey_mult a b)
  sig_mult_negate : ∀ P a,
    C.Signature_add (C.Signature_mult P a) (C.Signature_mult P (C.PrivateKey_negate a))
      = C.Signature_zero
  pairing_left : ∀ P Q a,
    C.Pairing_map (C.Signature_mult P a) Q = C.Pairing_pow (C.Pairing_map P Q) a
  pairing_right : ∀ P Q a,
    C.Pairing_map P (C.GroupPublicKey_mult Q a) = C.Pairing_pow (C.Pairing_map P Q) a

/-- String serialisation round-trips: `assign(toString(v))` succeeds and yields `v`. -/
structure CryptoType.SerializationRoundTrips (C : CryptoType) : Prop where
  privateKey : ∀ a, C.PrivateKey_assign (C.PrivateKey_toString a) = some a
  signature : ∀ P, C.Signature_assign (C.Signature_toString P) = some P

/-! ## Data model -/

/-- `MessagePayload`: the message bytes, only ever consumed by `hashAndMap`. -/
abbrev MessagePayload := String

/-- `CryptoType::Proof`, a pair of scalars: `first` is the challenge and
`second` the response. -/
structure Proof (C : CryptoType) where
  first : C.PrivateKey
  second : C.PrivateKey

/-! ## Proof primitives -/

/-- `GlowDvrf::proof` (lines 46-64); `r` is the value given by `r.random()`. -/
def proof (C : CryptoType) (G : C.Signature) (message : MessagePayload) (y : C.Signature)
    (sig : C.Signature) (x : C.PrivateKey) (r : C.PrivateKey) : Proof C :=
  let PH := C.Signature_hashAndMap message
  let com1 := C.Signature_mult G r
  let com2 := C.Signature_mult PH r
  let pi_first := C.PrivateKey_setHashOf G PH y sig com1 com2
  let localVar := C.PrivateKey_mult x pi_first
  { first := pi_first, second := C.PrivateKey_add r localVar }

/-- `GlowDvrf::verify`, the five-argument overload taking a proof (lines 75-95). -/
def verify (C : CryptoType) (y : C.Signature) (message : MessagePayload) (sign : C.Signature)
    (G : C.Signature) (proof : Proof C) : Bool :=
  let PH := C.Signature_hashAndMap message
  let tmps := C.PrivateKey_negate proof.first
  let c1 := C.Signature_mult G proof.second
  let tmp := C.Signature_mult y tmps
  let c1 := C.Signature_add c1 tmp
  let c2 := C.Signature_mult PH proof.second
  let tmp := C.Signature_mult sign tmps
  let c2 := C.Signature_add c2 tmp
  let ch_cmp := C.PrivateKey_setHashOf G PH y sign c1 c2
  decide (proof.first = ch_cmp)

/-- `GlowDvrf::verify`, the four-argument overload over `GroupPublicKey`
(lines 106-115): the pairing check. -/
def verify_pairing (C : CryptoType) (y : C.GroupPublicKey) (message : MessagePayload)
    (sign : C.Signature) (G : C.GroupPublicKey) : Bool :=
  let PH := C.Signature_hashAndMap message
  let e1 := C.Pairing_map sign G
  let e2 := C.Pairing_map PH y
  decide (e1 = e2)

/-! ## Masked evaluation -/

/-- `PrivateInput`, the pair `std::pair<Signature, Proof>`. -/
abbrev PrivateInput (C : CryptoType) := C.Signature × Proof C

/-- `GlowDvrf::genMaskedInput` (lines 118-134); `rand` is the value given by
`rand.random()` and `r` the one sampled inside the call to `proof`.  The result
is the tuple `(rand, expRand, sign, zkExp)`. -/
def genMaskedInput (C : CryptoType) (G : C.Signature) (message : MessagePayload)
    (rand : C.PrivateKey) (r : C.PrivateKey) :
    C.PrivateKey × C.Signature × C.Signature × Proof C :=
  let PH := C.Signature_hashAndMap message
  let sign := C.Signature_mult PH rand
  let expRand := C.Signature_mult G rand
  let zkExp := proof C G message expRand sign rand r
  (rand, expRand, sign, zkExp)

/-- `GlowDvrf::proofOfMasked` (lines 157-176); `r` is the value given by
`r.random()`. -/
def proofOfMasked (C : CryptoType) (G : C.Signature) (maskedInput : C.Signature)
    (y : C.Signature) (sig : C.Signature) (x : C.PrivateKey) (r : C.PrivateKey) : Proof C :=
  let com1 := C.Signature_mult G r
  let com2 := C.Signature_mult maskedInput r
  let pi_first := C.PrivateKey_setHashOf G maskedInput y sig com1 com2
  let localVar := C.PrivateKey_mult x pi_first
  { first := pi_first, second := C.PrivateKey_add r localVar }

/-- `GlowDvrf::proofAfterPrivateInput` (lines 137-153); `r` is the scalar
sampled inside `proofOfMasked`.  The header computes `check` and then runs the
body unconditionally: the `if (check)` around it and its `else` branch are
commented out. -/
def proofAfterPrivateInput (C : CryptoType) (G : C.Signature) (message : MessagePayload)
    (expRand : C.Signature) (maskedInput : C.Signature) (zkproof : Proof C)
    (x : C.PrivateKey) (y : C.Signature) (r : C.PrivateKey) : PrivateInput C :=
  let _check := verify C expRand message maskedInput G zkproof
  let mySign := C.Signature_mult maskedInput x
  let myPI := proofOfMasked C G maskedInput y mySign x r
  (mySign, myPI)

/-- `GlowDvrf::unMask` (lines 179-185). -/
def unMask (C : CryptoType) (sig : C.Signature) (rand : C.PrivateKey) : C.Signature :=
  let tmp := C.PrivateKey_negate rand
  let finalVal := C.Signature_mult sig tmp
  finalVal

/-! ## Contribution manager -/

/-- Modelled from the spec: the external accumulator `groupSignatureManager_`,
whose class is declared outside the header.  The core only ever calls its
"add share" operation, so it is represented by the sequence of additions
`(message, rank, signature)` it has received, oldest first. -/
structure GroupSignatureManager (C : CryptoType) where
  shares : List (MessagePayload × Nat × C.Signature)

/-- Modelled from the spec: `groupSignatureManager_.addSignatureShares(message,
{rank, sig})`, declared outside the header; it records one more addition. -/
def GroupSignatureManager.addSignatureShares {C : CryptoType} (m : GroupSignatureManager C)
    (message : MessagePayload) (rank : Nat) (sig : C.Signature) : GroupSignatureManager C :=
  { shares := m.shares ++ [(message, rank, sig)] }

/-- The members of the base class `GlowDkg<CryptoType>` the header reads
(`G`, `privateKey_`, `publicKeyShares_`) or mutates (`groupSignatureManager_`).
The mutex is not part of the sequential model. -/
structure GlowDkg (C : CryptoType) where
  G : C.Signature
  privateKey_ : C.PrivateKey
  publicKeyShares_ : List C.Signature
  groupSignatureManager_ : GroupSignatureManager C

/-- Modelled from the spec: `GlowDkg::sign(message, x)`, declared outside the
header; the spec gives it as `H(message)^privateKeyShare`. -/
def sign (C : CryptoType) (message : MessagePayload) (x : C.PrivateKey) : C.Signature :=
  C.Signature_mult (C.Signature_hashAndMap message) x

/-- How a member function ends: it returns a value, an `assert` fails
(the process aborts), or a vector is indexed out of range (undefined
behaviour).  Each case carries the party state at that point. -/
inductive Outcome (C : CryptoType) (α : Type) where
  | returned (value : α) (state : GlowDkg C)
  | assertFailed (state : GlowDkg C)
  | outOfRange (state : GlowDkg C)

/-- The wire record `SignaturesShare{message, signature, proof}` returned by
`getSignatureShare`; the proof is a pair of strings. -/
structure SignaturesShare where
  message : MessagePayload
  signature : String
  pi : String × String

/-- The inbound protobuf record `Gossip_SignatureShare`.  A field that is
absent is `none`; as in generated protobuf code, the accessor of an absent
string field yields the empty string. -/
structure Gossip_SignatureShare where
  message_field : MessagePayload
  share_sig_field : Option String
  share_pi_field : Option String
  share_pi2_field : Option String

/-- Accessor `message()`. -/
def Gossip_SignatureShare.message (m : Gossip_SignatureShare) : MessagePayload :=
  m.message_field

/-- Accessor `share_sig()`. -/
def Gossip_SignatureShare.share_sig (m : Gossip_SignatureShare) : String :=
  m.share_sig_field.getD ""

/-- Accessor `has_share_pi()`. -/
def Gossip_SignatureShare.has_share_pi (m : Gossip_SignatureShare) : Bool :=
  m.share_pi_field.isSome

/-- Accessor `share_pi()`. -/
def Gossip_SignatureShare.share_pi (m : Gossip_SignatureShare) : String :=
  m.share_pi_field.getD ""

/-- Accessor `has_share_pi2()`. -/
def Gossip_SignatureShare.has_share_pi2 (m : Gossip_SignatureShare) : Bool :=
  m.share_pi2_field.isSome

/-- Accessor `share_pi2()`. -/
def Gossip_SignatureShare.share_pi2 (m : Gossip_SignatureShare) : String :=
  m.share_pi2_field.getD ""

/-- The transport layer's packing of a produced record into the inbound
message: every field is present. -/
def SignaturesShare.toGossip (s : SignaturesShare) : Gossip_SignatureShare :=
  { message_field := s.message
    share_sig_field := some s.signature
    share_pi_field := some s.pi.1
    share_pi2_field := some s.pi.2 }

/-- `GlowDvrf::getSignatureShare` (lines 198-208); `r` is the scalar sampled
inside `proof`.  The statements run in the header's order: sign, index the
public key share and build the proof, add to the accumulator, assert, return. -/
def getSignatureShare (C : CryptoType) (self : GlowDkg C) (message : MessagePayload)
    (rank : Nat) (r : C.PrivateKey) : Outcome C SignaturesShare :=
  let mySign := sign C message self.privateKey_
  match self.publicKeyShares_[rank]? with
  | none => Outcome.outOfRange self
  | some pk =>
    let myPI := proof C self.G message pk mySign self.privateKey_ r
    let self1 : GlowDkg C :=
      { self with
        groupSignatureManager_ :=
          self.groupSignatureManager_.addSignatureShares message rank mySign }
    if verify C pk message mySign self1.G myPI then
      let piStr := (C.PrivateKey_toString myPI.first, C.PrivateKey_toString myPI.second)
      Outcome.returned
        { message := message, signature := C.Signature_toString mySign, pi := piStr } self1
    else
      Outcome.assertFailed self1

/-- `GlowDvrf::addSignatureShare` (lines 210-225).  The two assertions come
first; the condition is a short-circuit conjunction, so the public key share is
indexed only after all three `assign` calls have succeeded. -/
def addSignatureShare (C : CryptoType) (self : GlowDkg C) (share_msg : Gossip_SignatureShare)
    (minerIndex : Nat) : Outcome C Bool :=
  if !share_msg.has_share_pi then Outcome.assertFailed self
  else if !share_msg.has_share_pi2 then Outcome.assertFailed self
  else
    match C.Signature_assign share_msg.share_sig with
    | none => Outcome.returned false self
    | some sig =>
      match C.PrivateKey_assign share_msg.share_pi with
      | none => Outcome.returned false self
      | some pi_first =>
        match C.PrivateKey_assign share_msg.share_pi2 with
        | none => Outcome.returned false self
        | some pi_second =>
          match self.publicKeyShares_[minerIndex]? with
          | none => Outcome.outOfRange self
          | some pk =>
            if verify C pk share_msg.message sig self.G
                { first := pi_first, second := pi_second } then
              Outcome.returned true
                { self with
                  groupSignatureManager_ :=
                    self.groupSignatureManager_.addSignatureShares
                      share_msg.message minerIndex sig }
            else
              Outcome.returned false self

/-! ## Predicates used in the statements -/

/-- The admission condition of `addSignatureShare`, for the signature value
`sig`: both proof fields are present, the three strings deserialize (to `sig`
and to a challenge and response), and `verify` accepts them against the public
key share at `minerIndex`. -/
def Admissible (C : CryptoType) (self : GlowDkg C) (share_msg : Gossip_SignatureShare)
    (minerIndex : Nat) (sig : C.Signature) : Prop :=
  share_msg.has_share_pi = true ∧ share_msg.has_share_pi2 = true ∧
  C.Signature_assign share_msg.share_sig = some sig ∧
  ∃ (c s : C.PrivateKey) (pk : C.Signature),
    C.PrivateKey_assign share_msg.share_pi = some c ∧
    C.PrivateKey_assign share_msg.share_pi2 = some s ∧
    self.publicKeyShares_[minerIndex]? = some pk ∧
    verify C pk share_msg.message sig self.G { first := c, second := s } = true

/-- The party state after the accumulator has received one more addition. -/
def GlowDkg.withShare {C : CryptoType} (self : GlowDkg C) (message : MessagePayload)
    (rank : Nat) (sig : C.Signature) : GlowDkg C :=
  { self with
    groupSignatureManager_ :=
      self.groupSignatureManager_.addSignatureShares message rank sig }

/-- The ordered six-tuple of group elements given to `setHashOf`. -/
abbrev Transcript (C : CryptoType) :=
  C.Signature × C.Signature × C.Signature × C.Signature × C.Signature × C.Signature

/-- The challenge hash `setHashOf` applied to a six-tuple. -/
def hashOf (C : CryptoType) (t : Transcript C) : C.PrivateKey :=
  C.PrivateKey_setHashOf t.1 t.2.1 t.2.2.1 t.2.2.2.1 t.2.2.2.2.1 t.2.2.2.2.2

/-- The six-tuple `(G, PH, y, sig, com1, com2)` hashed inside `proof`. -/
def proofTranscript (C : CryptoType) (G : C.Signature) (message : MessagePayload)
    (y : C.Signature) (sig : C.Signature) (r : C.PrivateKey) : Transcript C :=
  (G, C.Signature_hashAndMap message, y, sig, C.Signature_mult G r,
    C.Signature_mult (C.Signature_hashAndMap message) r)

/-- The six-tuple `(G, PH, y, sign, c1, c2)` hashed inside `verify`. -/
def verifyTranscript (C : CryptoType) (y : C.Signature) (message : MessagePayload)
    (sign : C.Signature) (G : C.Signature) (proof : Proof C) : Transcript C :=
  (G, C.Signature_hashAndMap message, y, sign,
    C.Signature_add (C.Signature_mult G proof.second)
      (C.Signature_mult y (C.PrivateKey_negate proof.first)),
    C.Signature_add (C.Signature_mult (C.Signature_hashAndMap message) proof.second)
      (C.Signature_mult sign (C.PrivateKey_negate proof.first)))

/-- The challenge hash does not collide on two six-tuples: if the tuples
differ, so do their hashes. -/
def NoCollision (C : CryptoType) (t1 t2 : Transcript C) : Prop :=
  t1 ≠ t2 → hashOf C t1 ≠ hashOf C t2

/-! ## A small concrete backend

Scalars and all three groups are the integers modulo 11, written additively;
scalar multiplication is multiplication modulo 11 and the pairing is the
product.  It satisfies `CryptoType.Lawful` and serves to evaluate the
definitions on concrete inputs. -/

/-- Unary string form of a residue modulo 11: a tag character and `v` marks. -/
def toyToString (tag : Char) (v : ZMod 11) : String :=
  String.mk (tag :: List.replicate v.val '|')

/-- Parser for `toyToString`: the tag, then at most ten marks. -/
def toyAssign (tag : Char) (s : String) : Option (ZMod 11) :=
  match s.data with
  | [] => none
  | t :: rest =>
    if t = tag ∧ rest.all (fun ch => ch = '|') ∧ rest.length < 11 then
      some (rest.length : ZMod 11)
    else none

/-- Hash-and-map of the small backend: one more than the message length. -/
def toyHashAndMap (message : String) : ZMod 11 := (message.length : ZMod 11) + 1

/-- Challenge hash of the small backend: a fixed linear form of the six inputs. -/
def toySetHashOf (a b c d e f : ZMod 11) : ZMod 11 :=
  a + 2 * b + 3 * c + 4 * d + 5 * e + 6 * f + 1

/-- The small backend over the integers modulo 11. -/
@[reducible] def toy : CryptoType where
  PrivateKey := ZMod 11
  Signature := ZMod 11
  GroupPublicKey := ZMod 11
  Pairing := ZMod 11
  PrivateKey_eq := inferInstance
  Signature_eq := inferInstance
  Pairing_eq := inferInstance
  PrivateKey_negate := fun a => -a
  PrivateKey_add := fun a b => a + b
  PrivateKey_mult := fun a b => a * b
  PrivateKey_setHashOf := toySetHashOf
  PrivateKey_assign := toyAssign 'k'
  PrivateKey_toString := toyToString 'k'
  Signature_zero := 0
  Signature_hashAndMap := toyHashAndMap
  Signature_mult := fun P a => P * a
  Signature_add := fun P Q => P + Q
  Signature_assign := toyAssign 's'
  Signature_toString := toyToString 's'
  GroupPublicKey_mult := fun Q a => Q * a
  Pairing_map := fun P Q => P * Q
  Pairing_pow := fun e a => e * a

/-- A committee of four on the small backend, seen from the rank-2 party:
generator `1`, private share `2`, so the public key share at rank 2 is `2`. -/
def toyParty : GlowDkg toy :=
  { G := 1
    privateKey_ := 2
    publicKeyShares_ := [5, 7, 2, 9]
    groupSignatureManager_ := { shares := [] } }

/-- A well-formed inbound record whose challenge field is absent. -/
def toyShareNoPi : Gossip_SignatureShare :=
  { message_field := "hello"
    share_sig_field := some "s|"
    share_pi_field := none
    share_pi2_field := some "k||" }

/-- An inbound record with both proof fields present and a signature string
that does not parse. -/
def toyShareBadSig : Gossip_SignatureShare :=
  { message_field := "hello"
    share_sig_field := some "garbage"
    share_pi_field := some "k|"
    share_pi2_field := some "k||" }

/-- The same committee seen from the rank-0 party: same generator and public
key share table, its own private share, and an accumulator that already holds
one share. -/
def toyPeer : GlowDkg toy :=
  { G := 1
    privateKey_ := 5
    publicKeyShares_ := [5, 7, 2, 9]
    groupSignatureManager_ := { shares := [("earlier", 0, 4)] } }

/-- A well-formed inbound record with a forged proof: signature `1`, challenge
`1`, response `2`, for the message `"hello"`. -/
def toyShareForged : Gossip_SignatureShare :=
  { message_field := "hello"
    share_sig_field := some "s|"
    share_pi_field := some "k|"
    share_pi2_field := some "k||" }

/-- The record the rank-2 party produces for `"hello"` with nonce `5`:
signature `1`, challenge `9`, response `1`. -/
def toyShareGenuine : Gossip_SignatureShare :=
  { message_field := "hello"
    share_sig_field := some "s|"
    share_pi_field := some "k|||||||||"
    share_pi2_field := some "k|" }

/-! ## Theorems -/

theorem toy_lawful : toy.Lawful where
  mult_comm := show ∀ a b : ZMod 11, a * b = b * a from fun a b => mul_comm a b
  mult_negate := show ∀ a b : ZMod 11, a * -b = -(a * b) from fun a b => mul_neg a b
  sig_add_assoc := show ∀ P Q R : ZMod 11, P + Q + R = P + (Q + R) from
    fun P Q R => add_assoc P Q R
  sig_add_comm := show ∀ P Q : ZMod 11, P + Q = Q + P from fun P Q => add_comm P Q
  sig_add_zero := show ∀ P : ZMod 11, P + 0 = P from fun P => add_zero P
  sig_mult_add := show ∀ P a b : ZMod 11, P * (a + b) = P * a + P * b from
    fun P a b => mul_add P a b
  sig_mult_mult := show ∀ P a b : ZMod 11, P * a * b = P * (a * b) from
    fun P a b => mul_assoc P a b
  sig_mult_negate := show ∀ P a : ZMod 11, P * a + P * -a = 0 from fun P a => by ring
  pairing_left := show ∀ P Q a : ZMod 11, P * a * Q = P * Q * a from fun P Q a => by ring
  pairing_right := show ∀ P Q a : ZMod 11, P * (Q * a) = P * Q * a from fun P Q a => by ring

/-- The commitment is recovered from the response: for every base `P`,
`P^(r + x*c) * (P^x)^(-c) = P^r`. -/
theorem commitment_recovered {C : CryptoType} (h : C.Lawful) (P : C.Signature)
    (x r c : C.PrivateKey) :
    C.Signature_add (C.Signature_mult P (C.PrivateKey_add r (C.PrivateKey_mult x c)))
        (C.Signature_mult (C.Signature_mult P x) (C.PrivateKey_negate c))
      = C.Signature_mult P r := by
  rw [h.sig_mult_add, h.sig_mult_mult, h.mult_negate, h.sig_add_assoc, h.sig_mult_negate,
    h.sig_add_zero]

/-- What `verify` computes, with the local variables substituted. -/
theorem verify_unfold (C : CryptoType) (y : C.Signature) (message : MessagePayload)
    (sign G : C.Signature) (pi : Proof C) :
    verify C y message sign G pi
      = decide (pi.first = C.PrivateKey_setHashOf G (C.Signature_hashAndMap message) y sign
          (C.Signature_add (C.Signature_mult G pi.second)
            (C.Signature_mult y (C.PrivateKey_negate pi.first)))
          (C.Signature_add (C.Signature_mult (C.Signature_hashAndMap message) pi.second)
            (C.Signature_mult sign (C.PrivateKey_negate pi.first)))) := rfl

/-- Acceptance by `verify` as an equation between the challenge and the
recomputed hash. -/
theorem verify_eq_true_iff (C : CryptoType) (y : C.Signature) (message : MessagePayload)
    (sign G : C.Signature) (pi : Proof C) :
    verify C y message sign G pi = true ↔
      pi.first = C.PrivateKey_setHashOf G (C.Signature_hashAndMap message) y sign
          (C.Signature_add (C.Signature_mult G pi.second)
            (C.Signature_mult y (C.PrivateKey_negate pi.first)))
          (C.Signature_add (C.Signature_mult (C.Signature_hashAndMap message) pi.second)
            (C.Signature_mult sign (C.PrivateKey_negate pi.first))) := by
  rw [verify_unfold, decide_eq_true_iff]

/-- A proof built by `proof` for `y = G^x`, `sig = PH^x` passes `verify`;
shared by the completeness results below. -/
theorem verify_proof_eq_true {C : CryptoType} (h : C.Lawful) (G : C.Signature)
    (message : MessagePayload) (x r : C.PrivateKey) :
    verify C (C.Signature_mult G x) message
        (C.Signature_mult (C.Signature_hashAndMap message) x) G
        (proof C G message (C.Signature_mult G x)
          (C.Signature_mult (C.Signature_hashAndMap message) x) x r) = true := by
  rw [verify_eq_true_iff]
  simp only [proof]
  rw [commitment_recovered h, commitment_recovered h]

/-- C1. Completeness of the discrete-log-equality proof: for every generator
`G`, message, private scalar `x` and sampled nonce `r`, with `y = G^x` and
`sig = H(message)^x`, `verify(y, message, sig, G, proof(G, message, y, sig, x))`
returns true. -/
theorem verify_proof_complete (C : CryptoType) (h : C.Lawful) (G : C.Signature)
    (message : MessagePayload) (x r : C.PrivateKey) :
    verify C (C.Signature_mult G x) message
        (C.Signature_mult (C.Signature_hashAndMap message) x) G
        (proof C G message (C.Signature_mult G x)
          (C.Signature_mult (C.Signature_hashAndMap message) x) x r) = true :=
  verify_proof_eq_true h G message x r

/-- Instance of C1 on the small backend: `G = 1`, message `"hello"`, `x = 2`,
nonce `5`. -/
theorem verify_proof_complete_witness :
    toy.Lawful ∧
    verify toy (toy.Signature_mult 1 2) "hello"
        (toy.Signature_mult (toy.Signature_hashAndMap "hello") 2) 1
        (proof toy 1 "hello" (toy.Signature_mult 1 2)
          (toy.Signature_mult (toy.Signature_hashAndMap "hello") 2) 2 5) = true :=
  ⟨toy_lawful, verify_proof_complete toy toy_lawful 1 "hello" 2 5⟩

/-- C6. Pairing-check completeness: for every message, generator `G` and secret
`x`, with `y = G^x` and `sign = H(message)^x`, the pairing overload
`verify(y, message, sign, G)` returns true. -/
theorem verify_pairing_complete (C : CryptoType) (h : C.Lawful) (G : C.GroupPublicKey)
    (message : MessagePayload) (x : C.PrivateKey) :
    verify_pairing C (C.GroupPublicKey_mult G x) message
        (C.Signature_mult (C.Signature_hashAndMap message) x) G = true := by
  show decide (C.Pairing_map _ G = C.Pairing_map _ (C.GroupPublicKey_mult G x)) = true
  rw [decide_eq_true_iff, h.pairing_left, h.pairing_right]

/-- Instance of C6 on the small backend: `G = 3`, message `"hello"`, `x = 4`. -/
theorem verify_pairing_complete_witness :
    toy.Lawful ∧
    verify_pairing toy (toy.GroupPublicKey_mult 3 4) "hello"
        (toy.Signature_mult (toy.Signature_hashAndMap "hello") 4) 3 = true :=
  ⟨toy_lawful, verify_pairing_complete toy toy_lawful 3 "hello" 4⟩

/-- C10. `genMaskedInput(G, message)` returns `(r, expRand, maskedInput, pi)`
with `expRand = G^r`, `maskedInput = H(message)^r` for its sampled mask `r`, and
`verify(expRand, message, maskedInput, G, pi)` is true, for every mask and every
proof nonce. -/
theorem genMaskedInput_accepted (C : CryptoType) (h : C.Lawful) (G : C.Signature)
    (message : MessagePayload) (rand r : C.PrivateKey) :
    (genMaskedInput C G message rand r).1 = rand ∧
    (genMaskedInput C G message rand r).2.1 = C.Signature_mult G rand ∧
    (genMaskedInput C G message rand r).2.2.1
      = C.Signature_mult (C.Signature_hashAndMap message) rand ∧
    verify C (genMaskedInput C G message rand r).2.1 message
      (genMaskedInput C G message rand r).2.2.1 G
      (genMaskedInput C G message rand r).2.2.2 = true :=
  ⟨rfl, rfl, rfl, verify_proof_eq_true h G message rand r⟩

/-- Instance of C10 on the small backend: `G = 1`, message `"hello"`, mask `3`,
proof nonce `5`. -/
theorem genMaskedInput_accepted_witness :
    toy.Lawful ∧
    (genMaskedInput toy 1 "hello" 3 5).1 = 3 ∧
    (genMaskedInput toy 1 "hello" 3 5).2.1 = toy.Signature_mult 1 3 ∧
    (genMaskedInput toy 1 "hello" 3 5).2.2.1
      = toy.Signature_mult (toy.Signature_hashAndMap "hello") 3 ∧
    verify toy (genMaskedInput toy 1 "hello" 3 5).2.1 "hello"
      (genMaskedInput toy 1 "hello" 3 5).2.2.1 1
      (genMaskedInput toy 1 "hello" 3 5).2.2.2 = true :=
  ⟨toy_lawful, genMaskedInput_accepted toy toy_lawful 1 "hello" 3 5⟩

/-! ### Masked evaluation: what the code computes -/

/-- The value `unMask` recovers after a masked evaluation, in any lawful
backend: `H(message)^(-(rand * (x * rand)))`. -/
theorem unMask_after_masked {C : CryptoType} (h : C.Lawful) (G : C.Signature)
    (message : MessagePayload) (x : C.PrivateKey) (y : C.Signature)
    (rand r r2 : C.PrivateKey) :
    unMask C
        (proofAfterPrivateInput C G message (genMaskedInput C G message rand r).2.1
          (genMaskedInput C G message rand r).2.2.1 (genMaskedInput C G message rand r).2.2.2
          x y r2).1
        (genMaskedInput C G message rand r).1
      = C.Signature_mult (C.Signature_hashAndMap message)
          (C.PrivateKey_negate (C.PrivateKey_mult rand (C.PrivateKey_mult x rand))) := by
  simp only [unMask, proofAfterPrivateInput, genMaskedInput]
  rw [h.sig_mult_mult, h.sig_mult_mult, h.mult_negate, h.mult_negate]

/-- C2 (evaluation at the failing input). On the small backend with `G = 1`,
message `"hello"` (hashed to `6`), contributor scalar `x = 2`, mask `3`: the
contributor returns `mySign = 3`, `unMask(mySign, 3)` is `2`, and the direct
evaluation `H(message)^x` is `1`. -/
theorem unMask_roundtrip_fails :
    (proofAfterPrivateInput toy 1 "hello" (genMaskedInput toy 1 "hello" 3 5).2.1
      (genMaskedInput toy 1 "hello" 3 5).2.2.1 (genMaskedInput toy 1 "hello" 3 5).2.2.2
      2 (toy.Signature_mult 1 2) 7).1 = 3 ∧
    unMask toy
      (proofAfterPrivateInput toy 1 "hello" (genMaskedInput toy 1 "hello" 3 5).2.1
        (genMaskedInput toy 1 "hello" 3 5).2.2.1 (genMaskedInput toy 1 "hello" 3 5).2.2.2
        2 (toy.Signature_mult 1 2) 7).1
      (genMaskedInput toy 1 "hello" 3 5).1 = 2 ∧
    toy.Signature_mult (toy.Signature_hashAndMap "hello") 2 = 1 :=
  ⟨rfl, rfl, rfl⟩

/-- C3 (evaluation at the failing input). On the small backend with `G = 1`,
message `"hello"`, `expRand = 1`, `maskedInput = 1` and the requester proof
`(0, 0)`, `verify(expRand, message, maskedInput, G, proof)` is false, and
`proofAfterPrivateInput` with `x = 2`, `y = 2`, nonce `7` still returns the
contribution `mySign = 2` with the proof `(7, 10)`. -/
theorem proofAfterPrivateInput_ignores_check :
    verify toy 1 "hello" 1 1 { first := 0, second := 0 } = false ∧
    (proofAfterPrivateInput toy 1 "hello" 1 1 { first := 0, second := 0 } 2 2 7).1 = 2 ∧
    (proofAfterPrivateInput toy 1 "hello" 1 1 { first := 0, second := 0 } 2 2 7).2.first = 7 ∧
    (proofAfterPrivateInput toy 1 "hello" 1 1 { first := 0, second := 0 } 2 2 7).2.second
      = 10 :=
  ⟨rfl, rfl, rfl, rfl⟩

/-! ### Admission of peer shares -/

/-- The calls of `addSignatureShare` that return: true exactly on an admissible
record, with the one addition made; false only with the state unchanged. -/
theorem addSignatureShare_returned (C : CryptoType) (self : GlowDkg C)
    (share_msg : Gossip_SignatureShare) (minerIndex : Nat) :
    (∀ st, addSignatureShare C self share_msg minerIndex = Outcome.returned true st ↔
      ∃ sig, Admissible C self share_msg minerIndex sig ∧
        st = self.withShare share_msg.message minerIndex sig) ∧
    (∀ st, addSignatureShare C self share_msg minerIndex = Outcome.returned false st →
      st = self) := by
  unfold addSignatureShare Admissible GlowDkg.withShare
  cases hpi : share_msg.has_share_pi
  · simp
  cases hpi2 : share_msg.has_share_pi2
  · simp
  cases hsig : C.Signature_assign share_msg.share_sig with
  | none => simp
  | some sig =>
    cases hc : C.PrivateKey_assign share_msg.share_pi with
    | none => simp
    | some c =>
      cases hs : C.PrivateKey_assign share_msg.share_pi2 with
      | none => simp
      | some s =>
        cases hpk : self.publicKeyShares_[minerIndex]? with
        | none => simp
        | some pk =>
          cases hv : verify C pk share_msg.message sig self.G { first := c, second := s }
          · simp [hv]
          · simp [hv]
            intro st
            constructor
            · intro h; exact ⟨sig, ⟨rfl, hv⟩, h.symm⟩
            · rintro ⟨sig1, ⟨rfl, _⟩, h⟩; exact h.symm

/-- A record with both proof fields present in which one of the three strings
fails to deserialize is answered with false, the state unchanged. -/
theorem addSignatureShare_of_malformed (C : CryptoType) (self : GlowDkg C)
    (share_msg : Gossip_SignatureShare) (minerIndex : Nat)
    (hpi : share_msg.has_share_pi = true) (hpi2 : share_msg.has_share_pi2 = true)
    (hbad : C.Signature_assign share_msg.share_sig = none ∨
      C.PrivateKey_assign share_msg.share_pi = none ∨
      C.PrivateKey_assign share_msg.share_pi2 = none) :
    addSignatureShare C self share_msg minerIndex = Outcome.returned false self := by
  unfold addSignatureShare
  simp only [hpi, hpi2, Bool.not_true, Bool.false_eq_true, if_false]
  cases hsig : C.Signature_assign share_msg.share_sig with
  | none => rfl
  | some sig =>
    cases hc : C.PrivateKey_assign share_msg.share_pi with
    | none => rfl
    | some c =>
      cases hs : C.PrivateKey_assign share_msg.share_pi2 with
      | none => rfl
      | some s =>
        rcases hbad with h | h | h
        · rw [hsig] at h; cases h
        · rw [hc] at h; cases h
        · rw [hs] at h; cases h

/-- A record whose three strings deserialize but whose proof `verify` rejects
against the public key share at `minerIndex` is answered with false, the state
unchanged. -/
theorem addSignatureShare_of_forged (C : CryptoType) (self : GlowDkg C)
    (share_msg : Gossip_SignatureShare) (minerIndex : Nat) (sig : C.Signature)
    (c s : C.PrivateKey) (pk : C.Signature)
    (hpi : share_msg.has_share_pi = true) (hpi2 : share_msg.has_share_pi2 = true)
    (hsig : C.Signature_assign share_msg.share_sig = some sig)
    (hc : C.PrivateKey_assign share_msg.share_pi = some c)
    (hs : C.PrivateKey_assign share_msg.share_pi2 = some s)
    (hpk : self.publicKeyShares_[minerIndex]? = some pk)
    (hv : verify C pk share_msg.message sig self.G { first := c, second := s } = false) :
    addSignatureShare C self share_msg minerIndex = Outcome.returned false self := by
  unfold addSignatureShare
  simp only [hpi, hpi2, Bool.not_true, Bool.false_eq_true, if_false, hsig, hc, hs, hpk, hv]

/-- C4. Admission gating of `addSignatureShare(share, minerIndex)`: it returns
true exactly when the signature field and both proof fields deserialize and
`verify(publicKeyShares[minerIndex], share.message, sig, G, pi)` holds; when it
returns true the accumulator has received exactly one addition,
`(share.message, minerIndex, sig)`, and nothing else in the state has changed;
when it returns false the state, the accumulator included, is unchanged.  The
listed cases do return false with nothing forwarded: with both proof fields
present, a signature, challenge or response string that fails to deserialize,
and a record that deserializes but whose proof `verify` rejects for the public
key share at `minerIndex`, each give the result false and the unchanged state. -/
theorem addSignatureShare_admission (C : CryptoType) (self : GlowDkg C)
    (share_msg : Gossip_SignatureShare) (minerIndex : Nat) :
    (∀ st, addSignatureShare C self share_msg minerIndex = Outcome.returned true st ↔
      ∃ sig, Admissible C self share_msg minerIndex sig ∧
        st = self.withShare share_msg.message minerIndex sig) ∧
    (∀ st, addSignatureShare C self share_msg minerIndex = Outcome.returned false st →
      st = self) ∧
    (share_msg.has_share_pi = true → share_msg.has_share_pi2 = true →
      (C.Signature_assign share_msg.share_sig = none ∨
        C.PrivateKey_assign share_msg.share_pi = none ∨
        C.PrivateKey_assign share_msg.share_pi2 = none) →
      addSignatureShare C self share_msg minerIndex = Outcome.returned false self) ∧
    (∀ (sig : C.Signature) (c s : C.PrivateKey) (pk : C.Signature),
      share_msg.has_share_pi = true → share_msg.has_share_pi2 = true →
      C.Signature_assign share_msg.share_sig = some sig →
      C.PrivateKey_assign share_msg.share_pi = some c →
      C.PrivateKey_assign share_msg.share_pi2 = some s →
      self.publicKeyShares_[minerIndex]? = some pk →
      verify C pk share_msg.message sig self.G { first := c, second := s } = false →
      addSignatureShare C self share_msg minerIndex = Outcome.returned false self) ∧
    (∀ sig, Admissible C self share_msg minerIndex sig →
      addSignatureShare C self share_msg minerIndex
        = Outcome.returned true (self.withShare share_msg.message minerIndex sig)) :=
  ⟨(addSignatureShare_returned C self share_msg minerIndex).1,
    (addSignatureShare_returned C self share_msg minerIndex).2,
    addSignatureShare_of_malformed C self share_msg minerIndex,
    fun sig c s pk => addSignatureShare_of_forged C self share_msg minerIndex sig c s pk,
    fun sig hadm =>
      ((addSignatureShare_returned C self share_msg minerIndex).1 _).mpr ⟨sig, hadm, rfl⟩⟩

/-- Instances of C4 on the small backend, at rank 2 (public key share `2`): the
forged record (signature `1`, proof `(1, 2)`) is rejected by `verify` and the
call returns false with the state unchanged; the record with an unparseable
signature returns false; the genuine record (signature `1`, proof `(9, 1)`) is
admitted by the rank-0 party, whose accumulator receives `("hello", 2, 1)`. -/
theorem addSignatureShare_admission_witness :
    verify toy 2 "hello" 1 1 { first := 1, second := 2 } = false ∧
    addSignatureShare toy toyParty toyShareForged 2 = Outcome.returned false toyParty ∧
    addSignatureShare toy toyParty toyShareBadSig 2 = Outcome.returned false toyParty ∧
    verify toy 2 "hello" 1 1 { first := 9, second := 1 } = true ∧
    addSignatureShare toy toyPeer toyShareGenuine 2
      = Outcome.returned true (toyPeer.withShare "hello" 2 1) ∧
    (toyPeer.withShare "hello" 2 1).groupSignatureManager_.shares
      = [("earlier", 0, 4), ("hello", 2, 1)] :=
  ⟨rfl,
    (addSignatureShare_admission toy toyParty toyShareForged 2).2.2.2.1 1 1 2 2
      rfl rfl rfl rfl rfl rfl rfl,
    (addSignatureShare_admission toy toyParty toyShareBadSig 2).2.2.1 rfl rfl (Or.inl rfl),
    rfl,
    (addSignatureShare_admission toy toyPeer toyShareGenuine 2).2.2.2.2 1
      ⟨rfl, rfl, rfl, 9, 1, 2, rfl, rfl, rfl, rfl⟩,
    rfl⟩

/-- C5 (counterexample). A record whose challenge field `share_pi` is absent:
`addSignatureShare` fails its first assertion instead of returning false. -/
theorem addSignatureShare_missing_pi_aborts :
    toyShareNoPi.share_pi_field = none ∧
    addSignatureShare toy toyParty toyShareNoPi 2 = Outcome.assertFailed toyParty ∧
    ¬ ∃ st, addSignatureShare toy toyParty toyShareNoPi 2 = Outcome.returned false st := by
  refine ⟨rfl, rfl, ?_⟩
  rintro ⟨st, h⟩
  have h2 : addSignatureShare toy toyParty toyShareNoPi 2 = Outcome.assertFailed toyParty := rfl
  rw [h2] at h
  cases h

/-- C5 (amended). For every wire record in which both proof fields are present,
if the signature string, the challenge string or the response string fails to
deserialize, `addSignatureShare` returns false with the state unchanged; it
neither aborts nor indexes the public key share table. -/
theorem addSignatureShare_malformed_returns_false (C : CryptoType) (self : GlowDkg C)
    (share_msg : Gossip_SignatureShare) (minerIndex : Nat)
    (hpi : share_msg.has_share_pi = true) (hpi2 : share_msg.has_share_pi2 = true)
    (hbad : C.Signature_assign share_msg.share_sig = none ∨
      C.PrivateKey_assign share_msg.share_pi = none ∨
      C.PrivateKey_assign share_msg.share_pi2 = none) :
    addSignatureShare C self share_msg minerIndex = Outcome.returned false self := by
  unfold addSignatureShare
  simp only [hpi, hpi2, Bool.not_true, Bool.false_eq_true, if_false]
  cases hsig : C.Signature_assign share_msg.share_sig with
  | none => rfl
  | some sig =>
    cases hc : C.PrivateKey_assign share_msg.share_pi with
    | none => rfl
    | some c =>
      cases hs : C.PrivateKey_assign share_msg.share_pi2 with
      | none => rfl
      | some s =>
        rcases hbad with h | h | h
        · rw [hsig] at h; cases h
        · rw [hc] at h; cases h
        · rw [hs] at h; cases h

/-- Instance of the amended C5 on the small backend: both proof fields present,
signature string `"garbage"`. -/
theorem addSignatureShare_malformed_returns_false_witness :
    toyShareBadSig.has_share_pi = true ∧ toyShareBadSig.has_share_pi2 = true ∧
    toy.Signature_assign toyShareBadSig.share_sig = none ∧
    addSignatureShare toy toyParty toyShareBadSig 2 = Outcome.returned false toyParty :=
  ⟨rfl, rfl, rfl,
    addSignatureShare_malformed_returns_false toy toyParty toyShareBadSig 2 rfl rfl
      (Or.inl rfl)⟩

/-! ### Producing a share and admitting it -/

/-- The small backend's string form round-trips. -/
theorem toy_roundTrips : toy.SerializationRoundTrips where
  privateKey := show ∀ a : ZMod 11, toyAssign 'k' (toyToString 'k' a) = some a from by
    intro a; fin_cases a <;> rfl
  signature := show ∀ a : ZMod 11, toyAssign 's' (toyToString 's' a) = some a from by
    intro a; fin_cases a <;> rfl

/-- C8. Produce-then-admit round trip: if the producer's private share `x`
satisfies `publicKeyShares[k] = G^x`, then `getSignatureShare(message, k)`
returns a record `rec`, and any party holding the same `G` and public key share
table gets `addSignatureShare(rec, k) = true`, assuming string serialisation
round-trips; the share it forwards to its accumulator is
`(message, k, H(message)^x)`. -/
theorem getSignatureShare_then_addSignatureShare (C : CryptoType) (hL : C.Lawful)
    (hS : C.SerializationRoundTrips) (producer receiver : GlowDkg C)
    (message : MessagePayload) (k : Nat) (r : C.PrivateKey)
    (hG : receiver.G = producer.G)
    (hT : receiver.publicKeyShares_ = producer.publicKeyShares_)
    (hk : producer.publicKeyShares_[k]?
      = some (C.Signature_mult producer.G producer.privateKey_)) :
    ∃ rec st, getSignatureShare C producer message k r = Outcome.returned rec st ∧
      addSignatureShare C receiver rec.toGossip k
        = Outcome.returned true
            (receiver.withShare message k
              (C.Signature_mult (C.Signature_hashAndMap message) producer.privateKey_)) := by
  have hv := verify_proof_eq_true hL producer.G message producer.privateKey_ r
  unfold getSignatureShare
  simp only [hk, sign, hv, if_true]
  refine ⟨_, _, rfl, ?_⟩
  unfold addSignatureShare
  simp only [SignaturesShare.toGossip, Gossip_SignatureShare.has_share_pi,
    Gossip_SignatureShare.has_share_pi2, Gossip_SignatureShare.share_sig,
    Gossip_SignatureShare.share_pi, Gossip_SignatureShare.share_pi2,
    Gossip_SignatureShare.message, Option.isSome_some, Option.getD_some, Bool.not_true,
    Bool.false_eq_true, if_false, hS.signature, hS.privateKey, hT, hk, hG, hv, if_true,
    GlowDkg.withShare]

/-- Instance of C8 on the small backend: the rank-2 party produces a share for
`"hello"` and the rank-0 party admits it. -/
theorem getSignatureShare_then_addSignatureShare_witness :
    ∃ rec st, getSignatureShare toy toyParty "hello" 2 5 = Outcome.returned rec st ∧
      addSignatureShare toy toyPeer rec.toGossip 2
        = Outcome.returned true
            (toyPeer.withShare "hello" 2
              (toy.Signature_mult (toy.Signature_hashAndMap "hello") toyParty.privateKey_)) :=
  getSignatureShare_then_addSignatureShare toy toy_lawful toy_roundTrips toyParty toyPeer
    "hello" 2 5 rfl rfl rfl

/-! ### Soundness under mutation -/

/-- The challenge of a proof built by `proof` is the hash of its transcript. -/
theorem proof_first_eq (C : CryptoType) (G : C.Signature) (message : MessagePayload)
    (y sig : C.Signature) (x r : C.PrivateKey) :
    (proof C G message y sig x r).first = hashOf C (proofTranscript C G message y sig r) :=
  rfl

/-- The response of a proof built by `proof`, in terms of its challenge. -/
theorem proof_second_eq (C : CryptoType) (G : C.Signature) (message : MessagePayload)
    (y sig : C.Signature) (x r : C.PrivateKey) :
    (proof C G message y sig x r).second
      = C.PrivateKey_add r (C.PrivateKey_mult x (proof C G message y sig x r).first) :=
  rfl

/-- Rejection by `verify` in terms of the six-tuple it hashes. -/
theorem verify_eq_false_iff (C : CryptoType) (y : C.Signature) (message : MessagePayload)
    (sign G : C.Signature) (pi : Proof C) :
    verify C y message sign G pi = false ↔
      pi.first ≠ hashOf C (verifyTranscript C y message sign G pi) := by
  rw [verify_unfold, decide_eq_false_iff_not]
  rfl

/-- A challenge that is the hash of `t1` is rejected when `verify` hashes a
different six-tuple on which the hash does not collide with `t1`. -/
theorem verify_false_of_noCollision {C : CryptoType} (y : C.Signature)
    (message : MessagePayload) (sign G : C.Signature) (pi : Proof C) (t1 : Transcript C)
    (hfirst : pi.first = hashOf C t1)
    (hne : t1 ≠ verifyTranscript C y message sign G pi)
    (hnc : NoCollision C t1 (verifyTranscript C y message sign G pi)) :
    verify C y message sign G pi = false := by
  rw [verify_eq_false_iff, hfirst]
  exact hnc hne

/-- Cancellation on the right of a scalar multiple: `A + P^a = B + P^a` gives
`A = B`. -/
theorem sig_add_right_cancel {C : CryptoType} (h : C.Lawful) (A B P : C.Signature)
    (a : C.PrivateKey)
    (heq : C.Signature_add A (C.Signature_mult P a) = C.Signature_add B (C.Signature_mult P a)) :
    A = B := by
  have key : ∀ X : C.Signature,
      C.Signature_add (C.Signature_add X (C.Signature_mult P a))
        (C.Signature_mult P (C.PrivateKey_negate a)) = X := by
    intro X
    rw [h.sig_add_assoc, h.sig_mult_negate, h.sig_add_zero]
  rw [← key A, heq, key B]

/-- C7 (counterexample). On the small backend with `G = 1`, message `"hello"`,
`x = 4`, nonce `1`, the valid proof is `(9, 4)`.  Replacing the challenge `9` by
`0` gives a proof that `verify` accepts, although the two six-tuples have
different hashes (`9` for the prover's, `0` for the verifier's): there is no
collision. -/
theorem verify_accepts_mutated_challenge :
    toy.Lawful ∧
    (proof toy 1 "hello" (toy.Signature_mult 1 4)
      (toy.Signature_mult (toy.Signature_hashAndMap "hello") 4) 4 1).first = 9 ∧
    (proof toy 1 "hello" (toy.Signature_mult 1 4)
      (toy.Signature_mult (toy.Signature_hashAndMap "hello") 4) 4 1).second = 4 ∧
    (0 : ZMod 11) ≠ 9 ∧
    hashOf toy (proofTranscript toy 1 "hello" (toy.Signature_mult 1 4)
      (toy.Signature_mult (toy.Signature_hashAndMap "hello") 4) 1) = 9 ∧
    hashOf toy (verifyTranscript toy (toy.Signature_mult 1 4) "hello"
      (toy.Signature_mult (toy.Signature_hashAndMap "hello") 4) 1
      { first := 0, second := 4 }) = 0 ∧
    NoCollision toy
      (proofTranscript toy 1 "hello" (toy.Signature_mult 1 4)
        (toy.Signature_mult (toy.Signature_hashAndMap "hello") 4) 1)
      (verifyTranscript toy (toy.Signature_mult 1 4) "hello"
        (toy.Signature_mult (toy.Signature_hashAndMap "hello") 4) 1
        { first := 0, second := 4 }) ∧
    verify toy (toy.Signature_mult 1 4) "hello"
      (toy.Signature_mult (toy.Signature_hashAndMap "hello") 4) 1
      { first := 0, second := 4 } = true := by
  refine ⟨toy_lawful, rfl, rfl, by decide, rfl, rfl, ?_, rfl⟩
  intro _
  show (9 : ZMod 11) ≠ 0
  decide

/-- C7 (amended). For every valid tuple `(G, message, y = G^x, sig = H(message)^x)`
and `pi = proof(G, message, y, sig, x)`, whenever the challenge hash does not
collide on the prover's and the verifier's six-tuples: replacing `G`, `y` or
`sig` by a different value, replacing the message by one with a different
hash-and-map image, or replacing the response by `s2` with `G^s2` different from
`G^s` or `H(message)^s2` different from `H(message)^s`, makes `verify` return
false.  Replacing the challenge by `c2` makes `verify` return false whenever
`c2` is not the hash of the six-tuple `verify` recomputes from it. -/
theorem verify_rejects_mutation (C : CryptoType) (h : C.Lawful) (G : C.Signature)
    (message : MessagePayload) (x r : C.PrivateKey) (y sig : C.Signature) (pi : Proof C)
    (hy : y = C.Signature_mult G x)
    (hsig : sig = C.Signature_mult (C.Signature_hashAndMap message) x)
    (hpi : pi = proof C G message y sig x r) :
    (∀ G2, G2 ≠ G →
      NoCollision C (proofTranscript C G message y sig r)
        (verifyTranscript C y message sig G2 pi) →
      verify C y message sig G2 pi = false) ∧
    (∀ message2, C.Signature_hashAndMap message2 ≠ C.Signature_hashAndMap message →
      NoCollision C (proofTranscript C G message y sig r)
        (verifyTranscript C y message2 sig G pi) →
      verify C y message2 sig G pi = false) ∧
    (∀ y2, y2 ≠ y →
      NoCollision C (proofTranscript C G message y sig r)
        (verifyTranscript C y2 message sig G pi) →
      verify C y2 message sig G pi = false) ∧
    (∀ sig2, sig2 ≠ sig →
      NoCollision C (proofTranscript C G message y sig r)
        (verifyTranscript C y message sig2 G pi) →
      verify C y message sig2 G pi = false) ∧
    (∀ s2,
      (C.Signature_mult G s2 ≠ C.Signature_mult G pi.second ∨
        C.Signature_mult (C.Signature_hashAndMap message) s2
          ≠ C.Signature_mult (C.Signature_hashAndMap message) pi.second) →
      NoCollision C (proofTranscript C G message y sig r)
        (verifyTranscript C y message sig G { first := pi.first, second := s2 }) →
      verify C y message sig G { first := pi.first, second := s2 } = false) ∧
    (∀ c2,
      c2 ≠ hashOf C (verifyTranscript C y message sig G { first := c2, second := pi.second }) →
      verify C y message sig G { first := c2, second := pi.second } = false) := by
  have hfirst : pi.first = hashOf C (proofTranscript C G message y sig r) := by
    rw [hpi]; rfl
  refine ⟨?_, ?_, ?_, ?_, ?_, ?_⟩
  · intro G2 hne hnc
    refine verify_false_of_noCollision y message sig G2 pi _ hfirst ?_ hnc
    intro heq
    exact hne (congrArg Prod.fst heq).symm
  · intro message2 hne hnc
    refine verify_false_of_noCollision y message2 sig G pi _ hfirst ?_ hnc
    intro heq
    exact hne (congrArg (fun t => t.2.1) heq).symm
  · intro y2 hne hnc
    refine verify_false_of_noCollision y2 message sig G pi _ hfirst ?_ hnc
    intro heq
    exact hne (congrArg (fun t => t.2.2.1) heq).symm
  · intro sig2 hne hnc
    refine verify_false_of_noCollision y message sig2 G pi _ hfirst ?_ hnc
    intro heq
    exact hne (congrArg (fun t => t.2.2.2.1) heq).symm
  · intro s2 hne hnc
    refine verify_false_of_noCollision y message sig G _ _ hfirst ?_ hnc
    intro heq
    have hsec : pi.second = C.PrivateKey_add r (C.PrivateKey_mult x pi.first) := by
      rw [hpi]; rfl
    have h1 : C.Signature_mult G r
        = C.Signature_add (C.Signature_mult G s2)
            (C.Signature_mult y (C.PrivateKey_negate pi.first)) :=
      congrArg (fun t => t.2.2.2.2.1) heq
    have h2 : C.Signature_mult (C.Signature_hashAndMap message) r
        = C.Signature_add (C.Signature_mult (C.Signature_hashAndMap message) s2)
            (C.Signature_mult sig (C.PrivateKey_negate pi.first)) :=
      congrArg (fun t => t.2.2.2.2.2) heq
    rcases hne with hG | hPH
    · apply hG
      rw [← commitment_recovered h G x r pi.first, ← hsec, hy, h.sig_mult_mult] at h1
      exact (sig_add_right_cancel h _ _ _ _ h1).symm
    · apply hPH
      rw [← commitment_recovered h (C.Signature_hashAndMap message) x r pi.first, ← hsec,
        hsig, h.sig_mult_mult] at h2
      exact (sig_add_right_cancel h _ _ _ _ h2).symm
  · intro c2 hne
    rw [verify_eq_false_iff]
    exact hne

/-- Instance of the amended C7 on the small backend: `G = 1`, message
`"hello"`, `x = 2`, nonce `5`; the generator is replaced by `3`, and the hashes
of the two six-tuples are `9` and `10`. -/
theorem verify_rejects_mutation_witness :
    toy.Lawful ∧ (3 : ZMod 11) ≠ 1 ∧
    NoCollision toy
      (proofTranscript toy 1 "hello" (toy.Signature_mult 1 2)
        (toy.Signature_mult (toy.Signature_hashAndMap "hello") 2) 5)
      (verifyTranscript toy (toy.Signature_mult 1 2) "hello"
        (toy.Signature_mult (toy.Signature_hashAndMap "hello") 2) 3
        (proof toy 1 "hello" (toy.Signature_mult 1 2)
          (toy.Signature_mult (toy.Signature_hashAndMap "hello") 2) 2 5)) ∧
    verify toy (toy.Signature_mult 1 2) "hello"
      (toy.Signature_mult (toy.Signature_hashAndMap "hello") 2) 3
      (proof toy 1 "hello" (toy.Signature_mult 1 2)
        (toy.Signature_mult (toy.Signature_hashAndMap "hello") 2) 2 5) = false :=
  have hne : (3 : ZMod 11) ≠ 1 := by decide
  have hnc : NoCollision toy
      (proofTranscript toy 1 "hello" (toy.Signature_mult 1 2)
        (toy.Signature_mult (toy.Signature_hashAndMap "hello") 2) 5)
      (verifyTranscript toy (toy.Signature_mult 1 2) "hello"
        (toy.Signature_mult (toy.Signature_hashAndMap "hello") 2) 3
        (proof toy 1 "hello" (toy.Signature_mult 1 2)
          (toy.Signature_mult (toy.Signature_hashAndMap "hello") 2) 2 5)) :=
    fun _ => show (9 : ZMod 11) ≠ 10 from by decide
  ⟨toy_lawful, hne, hnc,
    (verify_rejects_mutation toy toy_lawful 1 "hello" 2 5 (toy.Signature_mult 1 2)
      (toy.Signature_mult (toy.Signature_hashAndMap "hello") 2)
      (proof toy 1 "hello" (toy.Signature_mult 1 2)
        (toy.Signature_mult (toy.Signature_hashAndMap "hello") 2) 2 5) rfl rfl rfl).1 3 hne hnc⟩

/-! ### Rank binding -/

/-- C9 (counterexample). On the small backend the rank-2 party (private share
`2`, public key share `2`) produces a share for `"hello"` with nonce `10`; its
proof is `(5, 9)`.  The rank-0 party, given that record tagged with rank 1
(public key share `7`, different from `2`), returns true and adds
`("hello", 1, 1)` to its accumulator: the challenge hash takes the value `5` on
both six-tuples. -/
theorem addSignatureShare_wrong_rank_accepted :
    toy.Lawful ∧ toy.SerializationRoundTrips ∧
    toyParty.publicKeyShares_[2]?
      = some (toy.Signature_mult toyParty.G toyParty.privateKey_) ∧
    toyPeer.publicKeyShares_[1]? = some 7 ∧
    toyParty.publicKeyShares_[2]? = some 2 ∧
    (7 : ZMod 11) ≠ 2 ∧
    (proof toy 1 "hello" 2 (sign toy "hello" 2) 2 10).first = 5 ∧
    (proof toy 1 "hello" 2 (sign toy "hello" 2) 2 10).second = 9 ∧
    hashOf toy (proofTranscript toy 1 "hello" 2 (sign toy "hello" 2) 10) = 5 ∧
    hashOf toy (verifyTranscript toy 7 "hello" (sign toy "hello" 2) 1
      { first := 5, second := 9 }) = 5 ∧
    ∃ rec st, getSignatureShare toy toyParty "hello" 2 10 = Outcome.returned rec st ∧
      rec = { message := "hello", signature := "s|", pi := ("k|||||", "k|||||||||") } ∧
      addSignatureShare toy toyPeer rec.toGossip 1
        = Outcome.returned true (toyPeer.withShare "hello" 1 1) :=
  ⟨toy_lawful, toy_roundTrips, rfl, rfl, rfl, by decide, rfl, rfl, rfl, rfl,
    _, _, rfl, rfl, rfl⟩

/-- C9 (amended). A wire record produced by `getSignatureShare(message, k)` for
the party holding `publicKeyShares[k] = G^x` is rejected when tagged with a rank
`j` whose public key share differs from `publicKeyShares[k]`, whenever the
challenge hash does not collide on the producer's six-tuple and the six-tuple
`verify` recomputes with the share at rank `j`: `addSignatureShare(rec, j)`
returns false and the state, the accumulator included, is unchanged
(string serialisation is assumed to round-trip). -/
theorem addSignatureShare_wrong_rank_rejected (C : CryptoType) (hL : C.Lawful)
    (hS : C.SerializationRoundTrips) (producer receiver : GlowDkg C)
    (message : MessagePayload) (k j : Nat) (r : C.PrivateKey) (yj : C.Signature)
    (hG : receiver.G = producer.G)
    (hT : receiver.publicKeyShares_ = producer.publicKeyShares_)
    (hk : producer.publicKeyShares_[k]?
      = some (C.Signature_mult producer.G producer.privateKey_))
    (hj : producer.publicKeyShares_[j]? = some yj)
    (hne : yj ≠ C.Signature_mult producer.G producer.privateKey_)
    (hnc : NoCollision C
      (proofTranscript C producer.G message
        (C.Signature_mult producer.G producer.privateKey_)
        (C.Signature_mult (C.Signature_hashAndMap message) producer.privateKey_) r)
      (verifyTranscript C yj message
        (C.Signature_mult (C.Signature_hashAndMap message) producer.privateKey_) producer.G
        (proof C producer.G message (C.Signature_mult producer.G producer.privateKey_)
          (C.Signature_mult (C.Signature_hashAndMap message) producer.privateKey_)
          producer.privateKey_ r))) :
    ∃ rec st, getSignatureShare C producer message k r = Outcome.returned rec st ∧
      addSignatureShare C receiver rec.toGossip j = Outcome.returned false receiver := by
  have hv := verify_proof_eq_true hL producer.G message producer.privateKey_ r
  have hrej : verify C yj message
      (C.Signature_mult (C.Signature_hashAndMap message) producer.privateKey_) producer.G
      (proof C producer.G message (C.Signature_mult producer.G producer.privateKey_)
        (C.Signature_mult (C.Signature_hashAndMap message) producer.privateKey_)
        producer.privateKey_ r) = false := by
    refine verify_false_of_noCollision yj message _ producer.G _ _ (proof_first_eq C _ _ _ _ _ _)
      ?_ hnc
    intro heq
    exact hne (congrArg (fun t => t.2.2.1) heq).symm
  unfold getSignatureShare
  simp only [hk, sign, hv, if_true]
  refine ⟨_, _, rfl, ?_⟩
  unfold addSignatureShare
  simp only [SignaturesShare.toGossip, Gossip_SignatureShare.has_share_pi,
    Gossip_SignatureShare.has_share_pi2, Gossip_SignatureShare.share_sig,
    Gossip_SignatureShare.share_pi, Gossip_SignatureShare.share_pi2,
    Gossip_SignatureShare.message, Option.isSome_some, Option.getD_some, Bool.not_true,
    Bool.false_eq_true, if_false, hS.signature, hS.privateKey, hT, hj, hG, hrej]

/-- Instance of the amended C9 on the small backend: the rank-2 party produces
a share for `"hello"` with nonce `5` (challenge `9`); tagged with rank 1 the
verifier's six-tuple hashes to `8`, and the rank-0 party returns false. -/
theorem addSignatureShare_wrong_rank_rejected_witness :
    ∃ rec st, getSignatureShare toy toyParty "hello" 2 5 = Outcome.returned rec st ∧
      addSignatureShare toy toyPeer rec.toGossip 1 = Outcome.returned false toyPeer :=
  addSignatureShare_wrong_rank_rejected toy toy_lawful toy_roundTrips toyParty toyPeer
    "hello" 2 1 5 7 rfl rfl rfl rfl (show (7 : ZMod 11) ≠ 2 from by decide)
    (fun _ => show (9 : ZMod 11) ≠ 8 from by decide)

/-! ### The self-check of `getSignatureShare` -/

/-- C12. The internal self-check of `getSignatureShare` cannot fail on
consistent key material: for every message and rank `k` with
`publicKeyShares[k] = G^privateKey`, and every proof nonce, the asserted
`verify(publicKeyShares[k], message, mySign, G, myPI)` is true, and
`getSignatureShare` returns the record
`{message, toString(H(message)^privateKey), (toString(c), toString(s))}` of the
proof `(c, s)` it just verified. -/
theorem getSignatureShare_selfcheck_passes (C : CryptoType) (h : C.Lawful) (self : GlowDkg C)
    (message : MessagePayload) (k : Nat) (r : C.PrivateKey)
    (hk : self.publicKeyShares_[k]? = some (C.Signature_mult self.G self.privateKey_)) :
    verify C (C.Signature_mult self.G self.privateKey_) message
        (C.Signature_mult (C.Signature_hashAndMap message) self.privateKey_) self.G
        (proof C self.G message (C.Signature_mult self.G self.privateKey_)
          (C.Signature_mult (C.Signature_hashAndMap message) self.privateKey_)
          self.privateKey_ r) = true ∧
    getSignatureShare C self message k r
      = Outcome.returned
          { message := message
            signature := C.Signature_toString
              (C.Signature_mult (C.Signature_hashAndMap message) self.privateKey_)
            pi :=
              (C.PrivateKey_toString
                (proof C self.G message (C.Signature_mult self.G self.privateKey_)
                  (C.Signature_mult (C.Signature_hashAndMap message) self.privateKey_)
                  self.privateKey_ r).first,
               C.PrivateKey_toString
                (proof C self.G message (C.Signature_mult self.G self.privateKey_)
                  (C.Signature_mult (C.Signature_hashAndMap message) self.privateKey_)
                  self.privateKey_ r).second) }
          (self.withShare message k
            (C.Signature_mult (C.Signature_hashAndMap message) self.privateKey_)) := by
  have hv := verify_proof_eq_true h self.G message self.privateKey_ r
  refine ⟨hv, ?_⟩
  unfold getSignatureShare
  simp only [hk, sign, hv, if_true, GlowDkg.withShare]

/-- Instance of C12 on the small backend: the rank-2 party (private share `2`,
public key share `2 = 1 * 2`) signs `"hello"` with nonce `5`; the proof is
`(9, 1)` and the signature `1`. -/
theorem getSignatureShare_selfcheck_passes_witness :
    toy.Lawful ∧
    toyParty.publicKeyShares_[2]?
      = some (toy.Signature_mult toyParty.G toyParty.privateKey_) ∧
    getSignatureShare toy toyParty "hello" 2 5
      = Outcome.returned
          { message := "hello", signature := "s|", pi := ("k|||||||||", "k|") }
          (toyParty.withShare "hello" 2 1) :=
  ⟨toy_lawful, rfl, (getSignatureShare_selfcheck_passes toy toy_lawful toyParty "hello" 2 5 rfl).2⟩

/-- When the self-check fails, `getSignatureShare` ends in the failed assertion
with the share already added to the accumulator. -/
theorem getSignatureShare_assertFailed (C : CryptoType) (self : GlowDkg C)
    (message : MessagePayload) (rank : Nat) (r : C.PrivateKey) (pk : C.Signature)
    (hpk : self.publicKeyShares_[rank]? = some pk)
    (hv : verify C pk message (sign C message self.privateKey_) self.G
      (proof C self.G message pk (sign C message self.privateKey_) self.privateKey_ r)
        = false) :
    getSignatureShare C self message rank r
      = Outcome.assertFailed
          (self.withShare message rank (sign C message self.privateKey_)) := by
  unfold getSignatureShare
  simp only [hpk, hv, GlowDkg.withShare]
  rfl

/-- C13 (evaluation at the failing input). On the small backend the rank-2
party (private share `2`) is asked for a share at rank 1, whose public key share
is `7`, not `1 * 2`.  The self-check is false, and `getSignatureShare` ends in
the failed assertion with `("hello", 1, 1)` already in the accumulator, which
was empty before the call. -/
theorem getSignatureShare_adds_before_selfcheck :
    toyParty.groupSignatureManager_.shares = [] ∧
    toyParty.publicKeyShares_[1]? = some 7 ∧
    toy.Signature_mult toyParty.G toyParty.privateKey_ = 2 ∧
    verify toy 7 "hello" (sign toy "hello" 2) 1
      (proof toy 1 "hello" 7 (sign toy "hello" 2) 2 5) = false ∧
    getSignatureShare toy toyParty "hello" 1 5
      = Outcome.assertFailed (toyParty.withShare "hello" 1 1) ∧
    (toyParty.withShare "hello" 1 1).groupSignatureManager_.shares = [("hello", 1, 1)] :=
  ⟨rfl, rfl, rfl, rfl, rfl, rfl⟩

/-! ### What `proof` and `verify` compute -/

/-- C14. `verify` (proof overload) decides exactly the Chaum-Pedersen equation:
for every `y`, message, `sign`, `G` and proof `(c, s)`, with `PH = H(message)`,
`verify(y, message, sign, G, (c, s))` is true if and only if
`c = Hash(G, PH, y, sign, G^s * y^(-c), PH^s * sign^(-c))`, the six hash inputs
in that order. -/
theorem verify_decides_chaum_pedersen (C : CryptoType) (y : C.Signature)
    (message : MessagePayload) (sign G : C.Signature) (c s : C.PrivateKey) :
    verify C y message sign G { first := c, second := s } = true ↔
      c = C.PrivateKey_setHashOf G (C.Signature_hashAndMap message) y sign
          (C.Signature_add (C.Signature_mult G s) (C.Signature_mult y (C.PrivateKey_negate c)))
          (C.Signature_add (C.Signature_mult (C.Signature_hashAndMap message) s)
            (C.Signature_mult sign (C.PrivateKey_negate c))) :=
  verify_eq_true_iff C y message sign G { first := c, second := s }

/-- C15. `proof` builds the Fiat-Shamir transcript: for every `G`, message, `y`,
`sig`, `x` and sampled nonce `r`, with `PH = H(message)`, it returns `(c, s)`
where `c = Hash(G, PH, y, sig, G^r, PH^r)` and `s = r + c*x` in the scalar
field. -/
theorem proof_transcript (C : CryptoType) (h : C.Lawful) (G : C.Signature)
    (message : MessagePayload) (y sig : C.Signature) (x r : C.PrivateKey) :
    (proof C G message y sig x r).first
      = C.PrivateKey_setHashOf G (C.Signature_hashAndMap message) y sig
          (C.Signature_mult G r) (C.Signature_mult (C.Signature_hashAndMap message) r) ∧
    (proof C G message y sig x r).second
      = C.PrivateKey_add r (C.PrivateKey_mult (proof C G message y sig x r).first x) := by
  refine ⟨rfl, ?_⟩
  rw [h.mult_comm]
  rfl

/-- Instance of C15 on the small backend: `G = 1`, message `"hello"`, `y = 2`,
`sig = 1`, `x = 2`, nonce `5`: the challenge is `9` and the response
`5 + 9 * 2 = 1`. -/
theorem proof_transcript_witness :
    toy.Lawful ∧
    (proof toy 1 "hello" 2 1 2 5).first = toySetHashOf 1 6 2 1 5 8 ∧
    (proof toy 1 "hello" 2 1 2 5).first = 9 ∧
    (proof toy 1 "hello" 2 1 2 5).second = 1 ∧
    (proof toy 1 "hello" 2 1 2 5).second
      = toy.PrivateKey_add 5 (toy.PrivateKey_mult (proof toy 1 "hello" 2 1 2 5).first 2) :=
  ⟨toy_lawful, (proof_transcript toy toy_lawful 1 "hello" 2 1 2 5).1, rfl, rfl,
    (proof_transcript toy toy_lawful 1 "hello" 2 1 2 5).2⟩

/-! ### The contributor side of masked evaluation -/

/-- C16. `proofOfMasked` is `proof` with `maskedInput` in place of the hashed
message: for the same nonce, `proofOfMasked(G, H(message), y, sig, x)` equals
`proof(G, message, y, sig, x)`; and `proofAfterPrivateInput` returns
`mySign = maskedInput^x` together with
`proofOfMasked(G, maskedInput, y, mySign, x)`. -/
theorem proofOfMasked_refines_proof (C : CryptoType) (G : C.Signature)
    (message : MessagePayload) (y sig : C.Signature) (x r : C.PrivateKey)
    (expRand maskedInput : C.Signature) (zkproof : Proof C) :
    proofOfMasked C G (C.Signature_hashAndMap message) y sig x r
      = proof C G message y sig x r ∧
    proofAfterPrivateInput C G message expRand maskedInput zkproof x y r
      = (C.Signature_mult maskedInput x,
          proofOfMasked C G maskedInput y (C.Signature_mult maskedInput x) x r) :=
  ⟨rfl, rfl⟩

/-- C17. `unMask` exponentiates by the negated mask: `unMask(sig, rand)` is
`sig^(-rand)`, and combined with `sig^rand` it gives the identity element. -/
theorem unMask_eq_negated_exponent (C : CryptoType) (h : C.Lawful) (sig : C.Signature)
    (rand : C.PrivateKey) :
    unMask C sig rand = C.Signature_mult sig (C.PrivateKey_negate rand) ∧
    C.Signature_add (unMask C sig rand) (C.Signature_mult sig rand) = C.Signature_zero := by
  refine ⟨rfl, ?_⟩
  rw [h.sig_add_comm]
  exact h.sig_mult_negate sig rand

/-- Instance of C17 on the small backend: `unMask(3, 3) = 3 * (-3) = 2`, and
`2 + 3 * 3 = 0`. -/
theorem unMask_eq_negated_exponent_witness :
    toy.Lawful ∧ unMask toy 3 3 = 2 ∧
    unMask toy 3 3 = toy.Signature_mult 3 (toy.PrivateKey_negate 3) ∧
    toy.Signature_add (unMask toy 3 3) (toy.Signature_mult 3 3) = toy.Signature_zero :=
  ⟨toy_lawful, rfl, (unMask_eq_negated_exponent toy toy_lawful 3 3).1,
    (unMask_eq_negated_exponent toy toy_lawful 3 3).2⟩

/-- C18. The result of `proofAfterPrivateInput` does not depend on the message,
on `expRand` or on the requester's proof: two calls that agree on `G`,
`maskedInput`, `x`, `y` and the proof nonce return equal pairs, whatever the
outcome of the requester-proof check. -/
theorem proofAfterPrivateInput_independent (C : CryptoType) (G maskedInput y : C.Signature)
    (x r : C.PrivateKey) (message1 message2 : MessagePayload) (expRand1 expRand2 : C.Signature)
    (zkproof1 zkproof2 : Proof C) :
    proofAfterPrivateInput C G message1 expRand1 maskedInput zkproof1 x y r
      = proofAfterPrivateInput C G message2 expRand2 maskedInput zkproof2 x y r :=
  rfl

/-- C19. Evaluation commutes with blinding: the `mySign` returned by
`proofAfterPrivateInput` on the `maskedInput = H(message)^rand` produced by
`genMaskedInput` equals `(H(message)^x)^rand`. -/
theorem mySign_eq_blinded_share (C : CryptoType) (h : C.Lawful) (G : C.Signature)
    (message : MessagePayload) (x : C.PrivateKey) (y : C.Signature)
    (rand r r2 : C.PrivateKey) :
    (genMaskedInput C G message rand r).2.2.1
      = C.Signature_mult (C.Signature_hashAndMap message) rand ∧
    (proofAfterPrivateInput C G message (genMaskedInput C G message rand r).2.1
        (genMaskedInput C G message rand r).2.2.1 (genMaskedInput C G message rand r).2.2.2
        x y r2).1
      = C.Signature_mult (C.Signature_mult (C.Signature_hashAndMap message) x) rand := by
  refine ⟨rfl, ?_⟩
  simp only [proofAfterPrivateInput, genMaskedInput]
  rw [h.sig_mult_mult, h.sig_mult_mult, h.mult_comm]

/-- Instance of C19 on the small backend: `G = 1`, message `"hello"` (hashed to
`6`), `x = 2`, mask `3`: `mySign = 6 * 3 * 2 = 3 = (6 * 2) * 3`. -/
theorem mySign_eq_blinded_share_witness :
    toy.Lawful ∧
    (proofAfterPrivateInput toy 1 "hello" (genMaskedInput toy 1 "hello" 3 5).2.1
        (genMaskedInput toy 1 "hello" 3 5).2.2.1 (genMaskedInput toy 1 "hello" 3 5).2.2.2
        2 2 7).1 = 3 ∧
    (proofAfterPrivateInput toy 1 "hello" (genMaskedInput toy 1 "hello" 3 5).2.1
        (genMaskedInput toy 1 "hello" 3 5).2.2.1 (genMaskedInput toy 1 "hello" 3 5).2.2.2
        2 2 7).1
      = toy.Signature_mult (toy.Signature_mult (toy.Signature_hashAndMap "hello") 2) 3 :=
  ⟨toy_lawful, rfl, (mySign_eq_blinded_share toy toy_lawful 1 "hello" 2 2 3 5 7).2⟩

/-- C20. The contributor's masked proof is complete relative to the masked
base: for every `G`, `maskedInput`, `x` and nonce, with `y = G^x` and
`(mySign, (c, s))` the result of `proofAfterPrivateInput`,
`c = Hash(G, maskedInput, y, mySign, G^s * y^(-c), maskedInput^s * mySign^(-c))`. -/
theorem masked_proof_satisfies_equation (C : CryptoType) (h : C.Lawful)
    (G maskedInput expRand : C.Signature) (message : MessagePayload) (zkproof : Proof C)
    (x r : C.PrivateKey) :
    (proofAfterPrivateInput C G message expRand maskedInput zkproof x
        (C.Signature_mult G x) r).2.first
      = C.PrivateKey_setHashOf G maskedInput (C.Signature_mult G x)
          (proofAfterPrivateInput C G message expRand maskedInput zkproof x
            (C.Signature_mult G x) r).1
          (C.Signature_add
            (C.Signature_mult G
              (proofAfterPrivateInput C G message expRand maskedInput zkproof x
                (C.Signature_mult G x) r).2.second)
            (C.Signature_mult (C.Signature_mult G x)
              (C.PrivateKey_negate
                (proofAfterPrivateInput C G message expRand maskedInput zkproof x
                  (C.Signature_mult G x) r).2.first)))
          (C.Signature_add
            (C.Signature_mult maskedInput
              (proofAfterPrivateInput C G message expRand maskedInput zkproof x
                (C.Signature_mult G x) r).2.second)
            (C.Signature_mult
              (proofAfterPrivateInput C G message expRand maskedInput zkproof x
                (C.Signature_mult G x) r).1
              (C.PrivateKey_negate
                (proofAfterPrivateInput C G message expRand maskedInput zkproof x
                  (C.Signature_mult G x) r).2.first))) := by
  simp only [proofAfterPrivateInput, proofOfMasked]
  rw [commitment_recovered h, commitment_recovered h]

/-- Instance of C20 on the small backend: `G = 1`, `maskedInput = 7`, `x = 2`
(`y = 2`), nonce `5`: `mySign = 3`, the proof is `(c, s) = (5, 4)`, and
`Hash(1, 7, 2, 3, 1 * 4 + 2 * (-5), 7 * 4 + 3 * (-5)) = 5`. -/
theorem masked_proof_satisfies_equation_witness :
    toy.Lawful ∧
    (proofAfterPrivateInput toy 1 "hello" 3 7 { first := 0, second := 0 } 2
      (toy.Signature_mult 1 2) 5).1 = 3 ∧
    (proofAfterPrivateInput toy 1 "hello" 3 7 { first := 0, second := 0 } 2
      (toy.Signature_mult 1 2) 5).2.first = 5 ∧
    (proofAfterPrivateInput toy 1 "hello" 3 7 { first := 0, second := 0 } 2
      (toy.Signature_mult 1 2) 5).2.second = 4 ∧
    (5 : ZMod 11) = toySetHashOf 1 7 2 3 (1 * 4 + 2 * (-5)) (7 * 4 + 3 * (-5)) :=
  ⟨toy_lawful, rfl, rfl, rfl,
    masked_proof_satisfies_equation toy toy_lawful 1 7 3 "hello"
      { first := 0, second := 0 } 2 5⟩

end GlowDvrf
